import Mathlib

/-!
Shallow embedding of the opavm version manager core (platform detection,
tool catalog, persistent state store, release client, version resolver,
installer) and proofs about its behaviour.  Every definition is translated
from the Python source under src/opavm; network and process effects are
abstracted into explicit oracles passed as arguments.
-/

namespace Opavm

/-- The error taxonomy of errors.py, one constructor per exception class,
plus constructors for Python runtime faults (AttributeError, KeyError)
that the source can raise when touching a missing attribute or dict key. -/
inductive Err where
  | opavmError (message : String) (hint : Option String)
  | unsupportedPlatform (message : String) (hint : String)
  | gitHubLookup (message : String) (hint : String)
  | download (message : String) (hint : String)
  | versionNotConfigured (message : String) (hint : String)
  | versionNotInstalled (message : String) (hint : String)
  | attrError (typeName : String) (attr : String)
  | keyError (key : String)
  deriving DecidableEq, Repr

/-- JSON values as produced by json.loads (config.py reads state.json into
such a value).  Object keys are strings, as in JSON. -/
inductive JVal where
  | null
  | bool (b : Bool)
  | num (n : Int)
  | str (s : String)
  | arr (elems : List JVal)
  | obj (entries : List (String × JVal))
  deriving Repr, BEq

/- ───────────── Python string primitives, structurally recursive ─────────────
The Lean core versions of toLower, trim, splitOn and split are defined by
well-founded recursion over byte positions and do not reduce inside the
kernel, so the Python string operations the source uses are modelled here
directly over the underlying character lists. -/

/-- Python str.lower (the source only lowercases ASCII names). -/
def pyLower (s : String) : String := ⟨s.data.map Char.toLower⟩

/-- Python str.strip(): remove leading and trailing whitespace. -/
def pyStrip (s : String) : String :=
  ⟨((s.data.dropWhile Char.isWhitespace).reverse.dropWhile Char.isWhitespace).reverse⟩

/-- Helper for splitting a character list at a separator predicate, with
an accumulator for the current field. -/
def splitByAux (p : Char → Bool) : List Char → List Char → List (List Char)
  | [], acc => [acc.reverse]
  | c :: rest, acc =>
      if p c then acc.reverse :: splitByAux p rest []
      else splitByAux p rest (c :: acc)

/-- Python str.split(sep) for a one-character separator (the source only
splits on "/" and on line breaks). -/
def pySplitOnChar (sep : Char) (s : String) : List String :=
  (splitByAux (fun c => c == sep) s.data []).map (fun l => ⟨l⟩)

/-- Python str.split() with no argument: maximal runs of non-whitespace
characters. -/
def pyWsTokens (s : String) : List String :=
  ((splitByAux Char.isWhitespace s.data []).filter (fun l => !l.isEmpty)).map (fun l => ⟨l⟩)

/-- Python str.startswith. -/
def pyStartsWith (s pre : String) : Bool := pre.data.isPrefixOf s.data

/-- Python str.endswith. -/
def pyEndsWith (s suf : String) : Bool := suf.data.isSuffixOf s.data

/-- Python s[1:]: drop the first character. -/
def pyDropOne (s : String) : String := ⟨s.data.drop 1⟩

/-- Python sep.join(items) (str.join / ", ".join in the source). -/
def joinSep (sep : String) : List String → String
  | [] => ""
  | [x] => x
  | x :: y :: rest => x ++ sep ++ joinSep sep (y :: rest)

/-- dict.get(key): first binding of the key in an object's entry list
(json.loads deduplicates keys, so the list has at most one binding). -/
def jget (entries : List (String × JVal)) (key : String) : Option JVal :=
  (entries.find? (fun e => e.1 == key)).map (fun e => e.2)

/-- A file system at file granularity: absolute path to file content.
Directories are not modelled; mkdir-style calls are no-ops here. -/
def FS := String → Option String

/-- The empty file system. -/
def fsEmpty : FS := fun _ => none

/-- Create or overwrite a file. -/
def fsSet (fs : FS) (p v : String) : FS := fun q => if q = p then some v else fs q

/-- Delete a file (os.remove / the removal half of os.replace). -/
def fsRemove (fs : FS) (p : String) : FS := fun q => if q = p then none else fs q

/-- Path.exists at file granularity. -/
def fsExists (fs : FS) (p : String) : Bool := (fs p).isSome

/- ───────────────────────── platform.py ───────────────────────── -/

/-- platform.normalized_os_arch, with the live platform.system() and
platform.machine() strings passed in explicitly. -/
def normalized_os_arch (sysName machine : String) : Except Err (String × String) :=
  let s := pyLower sysName
  let m := pyLower machine
  let osName? : Option String :=
    if s = "darwin" then some "darwin"
    else if s = "linux" then some "linux"
    else if s = "windows" then some "windows"
    else none
  match osName? with
  | none =>
      .error (.unsupportedPlatform ("Unsupported OS: " ++ s ++ ".")
        "opavm supports macOS, Linux, and Windows.")
  | some osName =>
      let arch? : Option String :=
        if m = "x86_64" ∨ m = "amd64" then some "amd64"
        else if m = "aarch64" ∨ m = "arm64" then some "arm64"
        else none
      match arch? with
      | none =>
          .error (.unsupportedPlatform ("Unsupported architecture: " ++ m ++ ".")
            "Use amd64 or arm64 hardware.")
      | some arch =>
          if osName = "windows" ∧ arch ≠ "amd64" then
            .error (.unsupportedPlatform ("Unsupported architecture: " ++ m ++ ".")
              "Windows support currently requires amd64.")
          else
            .ok (osName, arch)

/-- Specification-side lookup: the documented OS families. -/
def osFamily (s : String) : Option String :=
  if s = "darwin" ∨ s = "linux" ∨ s = "windows" then some s else none

/-- Specification-side lookup: the documented architecture mapping. -/
def archFamily (m : String) : Option String :=
  if m = "x86_64" ∨ m = "amd64" then some "amd64"
  else if m = "aarch64" ∨ m = "arm64" then some "arm64"
  else none

/-- platform.asset_name (the version argument is ignored by the source). -/
def asset_name (version os_name arch binary_base : String) : String :=
  let _ := version
  let extension := if os_name = "windows" then ".exe" else ""
  binary_base ++ "_" ++ os_name ++ "_" ++ arch ++ extension

/-- platform.asset_name_candidates: primary name, plus a "_static" fallback
for opa on darwin/linux arm64. -/
def asset_name_candidates (os_name arch binary_base : String) : List String :=
  let primary := asset_name "latest" os_name arch binary_base
  if binary_base = "opa" ∧ (os_name = "darwin" ∨ os_name = "linux") ∧ arch = "arm64" then
    [primary, "opa_" ++ os_name ++ "_" ++ arch ++ "_static"]
  else
    [primary]

/-- platform.binary_filename. -/
def binary_filename (os_name binary_base : String) : String :=
  if os_name = "windows" then binary_base ++ ".exe" else binary_base

/- ───────────────────────── catalog.py ───────────────────────── -/

/-- catalog.ToolSpec exactly as declared in the source: note that the
source dataclass has no pin_filename field (resolver.py and cli.py
nevertheless read spec.pin_filename). -/
structure ToolSpec where
  name : String
  display_name : String
  binary_base : String
  default_repo : String
  repo_env_var : String
  deriving DecidableEq, Repr

/-- The "opa" entry of catalog.SUPPORTED_TOOLS. -/
def opaSpec : ToolSpec :=
  ⟨"opa", "OPA", "opa", "open-policy-agent/opa", "OPAVM_GITHUB_REPO"⟩

/-- The "regal" entry of catalog.SUPPORTED_TOOLS. -/
def regalSpec : ToolSpec :=
  ⟨"regal", "Regal", "regal", "StyraInc/regal", "OPAVM_REGAL_GITHUB_REPO"⟩

/-- catalog.SUPPORTED_TOOLS as an association list in declaration order. -/
def SUPPORTED_TOOLS : List (String × ToolSpec) :=
  [("opa", opaSpec), ("regal", regalSpec)]

/-- catalog.get_tool: case-insensitive, whitespace-trimmed lookup.  The
sorted tool-name listing in the hint is "opa, regal". -/
def get_tool (tool : String) : Except Err ToolSpec :=
  let normalized := pyStrip (pyLower tool)
  match SUPPORTED_TOOLS.find? (fun p => p.1 == normalized) with
  | some p => .ok p.2
  | none => .error (.opavmError "Unknown tool." (some "Supported tools: opa, regal"))

/- ───────────────────────── config.py ───────────────────────── -/

/-- The parsed persistent state produced by config.load_state.  The
global_default entry is copied through unvalidated (raw.get returns None
when the key is absent, modelled as JVal.null); global_defaults is the
defensively filtered tool → version mapping. -/
structure PersistentState where
  global_default : JVal
  global_defaults : List (String × String)
  deriving Repr, BEq

/-- config._default_state. -/
def default_state : PersistentState := ⟨JVal.null, []⟩

/-- The dict comprehension in config.load_state: keep only entries whose
value is a string (JSON object keys are always strings, so the
isinstance check on the key always holds). -/
def stringEntries (entries : List (String × JVal)) : List (String × String) :=
  entries.filterMap (fun e =>
    match e.2 with
    | JVal.str v => some (e.1, v)
    | _ => none)

/-- config.load_state.  The state file on disk is abstracted to
`Option (Option JVal)`: none when the file is missing, some none when the
file exists but json.loads fails, some (some v) when it parses to v. -/
def load_state (file : Option (Option JVal)) : Except Err PersistentState :=
  match file with
  | none => .ok default_state
  | some none =>
      .error (.opavmError "Corrupt state file." (some "Delete ~/.opavm/state.json and retry."))
  | some (some raw) =>
      match raw with
      | JVal.obj entries =>
          let gd := (jget entries "global_default").getD JVal.null
          let gds :=
            match jget entries "global_defaults" with
            | some (JVal.obj ge) => stringEntries ge
            | _ => []
          .ok ⟨gd, gds⟩
      | _ => .ok default_state

/-- The legacy-key fallback inside config.get_global_default: for tool
"opa" only, use the top-level global_default when it is a non-blank
string. -/
def legacy_default (state : PersistentState) (tool : String) : Option String :=
  if tool = "opa" then
    match state.global_default with
    | JVal.str s => if pyStrip s ≠ "" then some s else none
    | _ => none
  else none

/-- config.get_global_default. -/
def get_global_default (file : Option (Option JVal)) (tool : String) :
    Except Err (Option String) := do
  let state ← load_state file
  match (state.global_defaults.find? (fun e => e.1 == tool)).map (fun e => e.2) with
  | some v => if pyStrip v ≠ "" then pure (some v) else pure (legacy_default state tool)
  | none => pure (legacy_default state tool)

/-- config.state_path for a given base directory. -/
def state_path (base : String) : String := base ++ "/state.json"

/-- The name tempfile.mkstemp(dir=path.parent, prefix="state.",
suffix=".tmp") hands back in config.save_state; uniq is the random part
chosen by mkstemp. -/
def tmp_path (base uniq : String) : String := base ++ "/state." ++ uniq ++ ".tmp"

/-- The steps of config.save_state at which an exception can interrupt
it: the json.dump/write, the flush+fsync, and the os.replace. -/
inductive SaveStep where
  | writeDoc
  | fsyncDoc
  | replaceDoc
  deriving DecidableEq, Repr

/-- Outcome of config.save_state: the resulting file system and whether
the call returned normally (true) or propagated an exception (false). -/
structure SaveResult where
  fs : FS
  ok : Bool

/-- config.save_state.  doc is the json.dumps serialization of the data
being saved (the source writes json.dump(data, f) followed by "\n");
failAt injects an exception at the named step (none for a normal run);
tornContent is whatever an interrupted write left in the temp file.
ensure_layout only creates directories, which the file-level FS does not
track.  The finally block removes the temp file when it still exists. -/
def save_state (fs : FS) (path tmpName : String) (doc : String)
    (failAt : Option SaveStep) (tornContent : String) : SaveResult :=
  let fs1 := fsSet fs tmpName ""
  if failAt = some SaveStep.writeDoc then
    let fs2 := fsSet fs1 tmpName tornContent
    ⟨if fsExists fs2 tmpName then fsRemove fs2 tmpName else fs2, false⟩
  else
    let fs2 := fsSet fs1 tmpName (doc ++ "\n")
    if failAt = some SaveStep.fsyncDoc then
      ⟨if fsExists fs2 tmpName then fsRemove fs2 tmpName else fs2, false⟩
    else if failAt = some SaveStep.replaceDoc then
      ⟨if fsExists fs2 tmpName then fsRemove fs2 tmpName else fs2, false⟩
    else
      let fs3 := fsSet (fsRemove fs2 tmpName) path (doc ++ "\n")
      ⟨if fsExists fs3 tmpName then fsRemove fs3 tmpName else fs3, true⟩

/- ───────────────────────── github.py ───────────────────────── -/

/-- github.ReleaseAsset. -/
structure ReleaseAsset where
  name : String
  url : String
  deriving DecidableEq, Repr

/-- github.ReleaseInfo. -/
structure ReleaseInfo where
  version : String
  tag : String
  assets : List ReleaseAsset
  deriving DecidableEq, Repr

/-- An entry of the "assets" array in the GitHub release payload, with
the two consumed fields each possibly absent. -/
structure AssetItem where
  name : Option String
  browser_download_url : Option String
  deriving DecidableEq, Repr

/-- The GitHub release payload as consumed by github.fetch_release:
tag_name is none when the key is missing (payload.get returns None), and
assets is the "assets" array ([] when the key is missing). -/
structure ReleasePayload where
  tag_name : Option String
  assets : List AssetItem
  deriving DecidableEq, Repr

/-- The owner/repo shape check shared by configured_repo and
validate_repo: exactly two non-empty slash-separated segments. -/
def valid_repo_format (repo : String) : Bool :=
  match pySplitOnChar '/' repo with
  | [a, b] => !(a == "") && !(b == "")
  | _ => false

/-- github.configured_repo.  The process environment is passed in for
scrutiny, but the source function never reads it: it only strips and
validates default_repo. -/
def configured_repo (env : List (String × String)) (default_repo : String) :
    Except Err String :=
  let _ := env
  let repo := pyStrip default_repo
  if valid_repo_format repo then .ok repo
  else
    .error (.gitHubLookup "Invalid repository value."
      ("Use format: owner/repo (example: " ++ default_repo ++ ")."))

/-- github.validate_repo. -/
def validate_repo (repo : String) : Except Err String :=
  let normalized := pyStrip repo
  if valid_repo_format normalized then .ok normalized
  else
    .error (.gitHubLookup "Invalid repository value."
      "Use format: owner/repo (example: open-policy-agent/opa).")

/-- github._normalize_tag. -/
def normalize_tag (version : String) : String :=
  if version = "latest" then version
  else if pyStartsWith version "v" then version
  else "v" ++ version

/-- github._version_from_tag. -/
def version_from_tag (tag : String) : String :=
  if pyStartsWith tag "v" then pyDropOne tag else tag

/-- The asset list comprehension in github.fetch_release: keep entries
holding both a name and a browser_download_url, silently dropping the
rest. -/
def assetsOfPayload (items : List AssetItem) : List ReleaseAsset :=
  items.filterMap (fun item =>
    match item.name, item.browser_download_url with
    | some n, some u => some ⟨n, u⟩
    | _, _ => none)

/-- The payload-to-ReleaseInfo tail of github.fetch_release: a missing or
empty (falsy) tag_name is an invalid response; otherwise the version is
the tag with a leading "v" stripped. -/
def release_of_payload (payload : ReleasePayload) : Except Err ReleaseInfo :=
  match payload.tag_name with
  | none => .error (.gitHubLookup "Invalid GitHub response." "Release tag missing.")
  | some t =>
      if t = "" then .error (.gitHubLookup "Invalid GitHub response." "Release tag missing.")
      else .ok ⟨version_from_tag t, t, assetsOfPayload payload.assets⟩

/-- github.fetch_release with the HTTP layer abstracted: fetchPayload
repo tag stands for the GET of .../repos/repo/releases/tags/tag (or
/releases/latest when tag is "latest").  When no explicit repo is given
the source falls back to configured_repo, which ignores the environment
and validates only the hard-coded default. -/
def fetch_release (env : List (String × String))
    (fetchPayload : String → String → ReleasePayload)
    (version : String) (repo : Option String) : Except Err ReleaseInfo := do
  let tag := normalize_tag version
  let selected_repo ←
    match repo with
    | some r => validate_repo r
    | none => configured_repo env "open-policy-agent/opa"
  release_of_payload (fetchPayload selected_repo tag)

/-- The inner loop of github.pick_asset_url: scan the release's asset
list in order for an exact name match, returning its URL. -/
def findAssetUrl (assets : List ReleaseAsset) (name : String) : Option String :=
  match assets with
  | [] => none
  | a :: rest => if a.name = name then some a.url else findAssetUrl rest name

/-- The candidate loop of github.pick_asset_url: try candidate names in
the caller-supplied order. -/
def pickFromCandidates (assets : List ReleaseAsset) (names : List String) : Option String :=
  match names with
  | [] => none
  | n :: rest =>
      match findAssetUrl assets n with
      | some u => some u
      | none => pickFromCandidates assets rest

/-- github.pick_asset_url. -/
def pick_asset_url (release : ReleaseInfo) (expected_names : List String) :
    Except Err String :=
  match pickFromCandidates release.assets expected_names with
  | some u => .ok u
  | none =>
      .error (.gitHubLookup
        ("No matching asset found for " ++ joinSep ", " expected_names ++ ".")
        "Check available release assets.")

/-- github.checksum_asset_url: first asset literally named
assetName.sha256, none when absent. -/
def checksum_asset_url (release : ReleaseInfo) (asset_name : String) : Option String :=
  findAssetUrl release.assets (asset_name ++ ".sha256")

/- ───────────────────────── download.py ───────────────────────── -/

/-- The hexadecimal alphabet accepted by download.parse_checksum_text. -/
def isHexChar (c : Char) : Bool := "0123456789abcdefABCDEF".toList.contains c

/-- line.split()[0]: the first maximal run of non-whitespace characters
(the caller only applies this to non-blank stripped lines, where it is
never the empty fallback). -/
def firstToken (line : String) : String :=
  match pyWsTokens line with
  | [] => ""
  | t :: _ => t

/-- The line loop of download.parse_checksum_text: skip blank lines,
return the lowercased first token of the first line whose first token is
a 64-character hexadecimal digest. -/
def parse_checksum_lines (lines : List String) : Option String :=
  match lines with
  | [] => none
  | line :: rest =>
      let l := pyStrip line
      if l = "" then parse_checksum_lines rest
      else
        let token := firstToken l
        if token.length = 64 ∧ token.data.all isHexChar then some (pyLower token)
        else parse_checksum_lines rest

/-- download.parse_checksum_text.  str.splitlines is modelled as
splitting on the newline character (the extra trailing empty string this
produces for newline-terminated text is blank and skipped). -/
def parse_checksum_text (text : String) : Except Err String :=
  match parse_checksum_lines (pySplitOnChar '\n' text) with
  | some t => .ok t
  | none => .error (.download "Invalid checksum file." "No SHA256 value found.")

/- ───────────────────────── resolver.py ───────────────────────── -/

/-- resolver.pin_filename.  The ToolSpec dataclass in catalog.py declares
no pin_filename field, so the attribute access spec.pin_filename raises
AttributeError at runtime; that runtime fault is the modelled result. -/
def pin_filename (tool : String) : Except Err String := do
  let _spec ← get_tool tool
  .error (.attrError "ToolSpec" "pin_filename")

/-- The directory loop of resolver.find_pin_file over
[current, *current.parents]: first directory containing the pin file. -/
def firstPinIn (fs : FS) (dirs : List String) (filename : String) : Option String :=
  match dirs with
  | [] => none
  | d :: rest =>
      if fsExists fs (d ++ "/" ++ filename) then some (d ++ "/" ++ filename)
      else firstPinIn fs rest filename

/-- resolver.find_pin_file, over the resolved directory chain
[start, *start.parents]. -/
def find_pin_file (fs : FS) (dirs : List String) (tool : String) :
    Except Err (Option String) := do
  let filename ← pin_filename tool
  pure (firstPinIn fs dirs filename)

/-- The global-default branch and the not-configured tail of
resolver.resolve_version.  In the no-default branch the source builds
pin_hint from spec.pin_filename before raising VersionNotConfiguredError;
that attribute is missing from ToolSpec, so AttributeError is raised
first. -/
def resolve_version_fallback (stateFile : Option (Option JVal)) (spec : ToolSpec) :
    Except Err (String × String) := do
  let global_default ← get_global_default stateFile spec.name
  match global_default with
  | some v => pure (v, "global default")
  | none => .error (.attrError "ToolSpec" "pin_filename")

/-- resolver.resolve_version.  dirs is the resolved directory chain of
the start path; stateFile is the state.json abstraction used by
load_state. -/
def resolve_version (fs : FS) (dirs : List String)
    (stateFile : Option (Option JVal)) (tool : String) :
    Except Err (String × String) := do
  let spec ← get_tool tool
  let pin_file ← find_pin_file fs dirs spec.name
  match pin_file with
  | some pin =>
      let pinned := pyStrip ((fs pin).getD "")
      if pinned ≠ "" then pure (pinned, "pinned via " ++ pin)
      else resolve_version_fallback stateFile spec
  | none => resolve_version_fallback stateFile spec

/- ───────────────────────── installer.py ───────────────────────── -/

/-- The darwin/linux/windows → Darwin/Linux/Windows dict lookup in
installer._asset_candidates for regal. -/
def regal_os_token (os_name : String) : Option String :=
  if os_name = "darwin" then some "Darwin"
  else if os_name = "linux" then some "Linux"
  else if os_name = "windows" then some "Windows"
  else none

/-- The amd64/arm64 → x86_64/arm64 dict lookup in
installer._asset_candidates for regal. -/
def regal_arch_token (arch : String) : Option String :=
  if arch = "amd64" then some "x86_64"
  else if arch = "arm64" then some "arm64"
  else none

/-- installer._asset_candidates.  A dict lookup on an unexpected os or
arch raises KeyError, modelled explicitly. -/
def _asset_candidates (tool os_name arch : String) : Except Err (List String) :=
  if tool = "opa" then .ok (asset_name_candidates os_name arch "opa")
  else if tool = "regal" then
    match regal_os_token os_name with
    | none => .error (.keyError os_name)
    | some os_token =>
        match regal_arch_token arch with
        | none => .error (.keyError arch)
        | some arch_token =>
            let suffix := if os_name = "windows" then ".exe" else ""
            .ok ["regal_" ++ os_token ++ "_" ++ arch_token ++ suffix]
  else .error (.opavmError "Unknown tool." (some "Supported tools: opa, regal"))

/-- config.tool_versions_dir (installer._tool_versions_dir). -/
def tool_versions_dir (base tool : String) : String :=
  if tool = "opa" then base ++ "/versions"
  else base ++ "/tools/" ++ tool ++ "/versions"

/-- installer._platform_binary_path. -/
def _platform_binary_path (base version os_name tool : String) : Except Err String :=
  match get_tool tool with
  | .error e => .error e
  | .ok spec =>
      .ok (tool_versions_dir base spec.name ++ "/" ++ version ++ "/"
        ++ binary_filename os_name spec.binary_base)

/-- installer.binary_path, with the live platform strings passed in.
Prefers the platform-specific filename, falls back to the alternate
extension, and returns the preferred path when neither exists. -/
def binary_path (base : String) (fs : FS) (sysName machine : String)
    (version tool : String) : Except Err String :=
  match get_tool tool with
  | .error e => .error e
  | .ok spec =>
      match normalized_os_arch sysName machine with
      | .error e => .error e
      | .ok pr =>
          let os_name := pr.1
          match _platform_binary_path base version os_name spec.name with
          | .error e => .error e
          | .ok preferred =>
              if fsExists fs preferred then .ok preferred
              else
                let preferredName := binary_filename os_name spec.binary_base
                let alternate_name :=
                  if preferredName = spec.binary_base then spec.binary_base ++ ".exe"
                  else spec.binary_base
                let alternate :=
                  tool_versions_dir base spec.name ++ "/" ++ version ++ "/" ++ alternate_name
                if fsExists fs alternate then .ok alternate else .ok preferred

/-- installer.is_installed. -/
def is_installed (base : String) (fs : FS) (sysName machine : String)
    (version tool : String) : Except Err Bool :=
  match binary_path base fs sysName machine version tool with
  | .error e => .error e
  | .ok p => .ok (fsExists fs p)

/-- The selected_asset_name loop of installer.install: the first
candidate name that matches some release asset, else the first candidate
(else the empty string, matching the "" initial value). -/
def firstMatchingCandidate (assets : List ReleaseAsset) (names : List String) :
    Option String :=
  match names with
  | [] => none
  | n :: rest =>
      if assets.any (fun a => a.name == n) then some n
      else firstMatchingCandidate assets rest

/-- selected_asset_name as computed by installer.install. -/
def selectAssetName (assets : List ReleaseAsset) (expected : List String) : String :=
  match firstMatchingCandidate assets expected with
  | some c => c
  | none =>
      match expected with
      | [] => ""
      | c :: _ => c

/-- The ambient effects installer.install performs, abstracted into
deterministic oracles: the live platform report, the process
environment, the GitHub payload per (repo, tag), download.fetch_text per
url, the downloaded bytes per url, hashlib sha256 per content,
subprocess-based binary verification per content, and whether the
streaming download succeeds. -/
structure InstallEnv where
  sysName : String
  machine : String
  env : List (String × String)
  fetchPayload : String → String → ReleasePayload
  fetchText : String → String
  assetContent : String → String
  sha256Of : String → String
  verifyOk : String → Bool
  downloadOk : Bool

/-- Result of installer.install: the emitted status trace, the resulting
file system, and the returned version or raised error. -/
structure InstallOut where
  trace : List String
  fs : FS
  result : Except Err String

/-- The verify_binary-and-done tail of installer.install (emitted after
the optional checksum step, identical on both branches). -/
def install_finish (e : InstallEnv) (t : List String) (fs1 : FS)
    (target resolved : String) : InstallOut :=
  let t2 := t ++ ["verifying"]
  if e.verifyOk ((fs1 target).getD "") then ⟨t2 ++ ["done"], fs1, .ok resolved⟩
  else ⟨t2, fs1, .error (.opavmError "Installed binary failed verification." (some "Run install again."))⟩

/-- installer.install.  ensure_layout creates only directories (a no-op
on the file-level FS).  download.download_binary streams to a temp file
and atomically renames it onto the target, so on success the target maps
to the asset's bytes and on failure nothing changes.  The repository
passed to fetch_release is spec.default_repo, as in the source. -/
def install (e : InstallEnv) (base : String) (fs : FS) (version tool : String) :
    InstallOut :=
  match get_tool tool with
  | .error err => ⟨[], fs, .error err⟩
  | .ok spec =>
    let t0 := ["resolving"]
    match normalized_os_arch e.sysName e.machine with
    | .error err => ⟨t0, fs, .error err⟩
    | .ok pr =>
      let os_name := pr.1
      let arch := pr.2
      let repo := spec.default_repo
      match fetch_release e.env e.fetchPayload version (some repo) with
      | .error err => ⟨t0, fs, .error err⟩
      | .ok release =>
        let resolved_version := release.version
        match is_installed base fs e.sysName e.machine resolved_version spec.name with
        | .error err => ⟨t0, fs, .error err⟩
        | .ok true => ⟨t0 ++ ["already_installed"], fs, .ok resolved_version⟩
        | .ok false =>
          match _asset_candidates spec.name os_name arch with
          | .error err => ⟨t0, fs, .error err⟩
          | .ok expected_assets =>
            let selected_asset_name := selectAssetName release.assets expected_assets
            match pick_asset_url release expected_assets with
            | .error err => ⟨t0, fs, .error err⟩
            | .ok asset_url =>
              match _platform_binary_path base resolved_version os_name spec.name with
              | .error err => ⟨t0, fs, .error err⟩
              | .ok target =>
                let t1 := t0 ++ ["downloading"]
                if e.downloadOk then
                  let fs1 := fsSet fs target (e.assetContent asset_url)
                  match checksum_asset_url release selected_asset_name with
                  | some checksum_url =>
                    let t2 := t1 ++ ["verifying_checksum"]
                    match parse_checksum_text (e.fetchText checksum_url) with
                    | .error err => ⟨t2, fs1, .error err⟩
                    | .ok expected_checksum =>
                      let actual_checksum := e.sha256Of ((fs1 target).getD "")
                      if expected_checksum ≠ actual_checksum then
                        ⟨t2, fs1, .error (.opavmError "Checksum verification failed."
                          (some ("Downloaded file hash mismatch for " ++ selected_asset_name ++ ".")))⟩
                      else install_finish e t2 fs1 target resolved_version
                  | none => install_finish e t1 fs1 target resolved_version
                else
                  ⟨t1, fs, .error (.download "Download failed." ("Could not fetch: " ++ asset_url))⟩

/- ───────────────── concrete scenarios used in the theorems ───────────────── -/

/-- The six normalized (os, arch) pairs together with the regal asset
candidate list installer._asset_candidates produces for them. -/
def regalCandidateTable : List (String × String × List String) :=
  [("darwin", "amd64", ["regal_Darwin_x86_64"]),
   ("darwin", "arm64", ["regal_Darwin_arm64"]),
   ("linux", "amd64", ["regal_Linux_x86_64"]),
   ("linux", "arm64", ["regal_Linux_arm64"]),
   ("windows", "amd64", ["regal_Windows_x86_64.exe"]),
   ("windows", "arm64", ["regal_Windows_arm64.exe"])]

/-- The a/b/c pin scenario: a pin file .opa-version holding "0.62.1\n" at
directory /t/a. -/
def pinScenarioFs : FS :=
  fun p => if p = "/t/a/.opa-version" then some ("0.62.1" ++ "\n") else none

/-- The resolved directory chain of start directory /t/a/b/c. -/
def pinScenarioDirs : List String := ["/t/a/b/c", "/t/a/b", "/t/a", "/t", "/"]

/-- The release of the asset-selection example: assets
opa_linux_arm64_static and opa_linux_amd64, in that order. -/
def staticAmdRelease : ReleaseInfo :=
  ⟨"1.2.3", "v1.2.3",
   [⟨"opa_linux_arm64_static", "https://example/static"⟩,
    ⟨"opa_linux_amd64", "https://example/amd64"⟩]⟩

/-- A release carrying both the primary arm64 asset and its "_static"
fallback (the static one listed first). -/
def primaryAndStaticRelease : ReleaseInfo :=
  ⟨"1.2.3", "v1.2.3",
   [⟨"opa_linux_arm64_static", "https://example/static"⟩,
    ⟨"opa_linux_arm64", "https://example/primary"⟩]⟩

/-- A linux/amd64 opa release payload whose single asset has no checksum
companion. -/
def opaPayloadPlain : ReleasePayload :=
  ⟨some "v0.62.1", [⟨some "opa_linux_amd64", some "https://example.test/opa"⟩]⟩

/-- A linux/amd64 opa release payload with a companion checksum asset. -/
def opaPayloadChecksum : ReleasePayload :=
  ⟨some "v0.62.1",
   [⟨some "opa_linux_amd64", some "https://example.test/opa"⟩,
    ⟨some "opa_linux_amd64.sha256", some "https://example.test/opa.sha256"⟩]⟩

/-- A 64-character hexadecimal digest used as the correct checksum in the
concrete install scenarios. -/
def goodDigest : String :=
  "2cf24dba5fb0a30e26e83b2ac5b9e29e1b161e5c1fa7425e73043362938b9824"

/-- A different 64-character hexadecimal digest, the wrong checksum. -/
def badDigest : String :=
  "0000000000000000000000000000000000000000000000000000000000000000"

/-- Concrete oracles for the idempotence scenario: linux/amd64 host, the
plain opa release, verification succeeding. -/
def plainEnv : InstallEnv :=
  ⟨"Linux", "x86_64", [], fun _ _ => opaPayloadPlain, fun _ => "",
   fun _ => "binary-bytes", fun _ => goodDigest, fun _ => true, true⟩

/-- Concrete oracles for the checksum scenarios: the checksum text served
for the companion asset is text, the downloaded bytes hash to
goodDigest. -/
def checksumEnv (text : String) : InstallEnv :=
  ⟨"Linux", "x86_64", [], fun _ _ => opaPayloadChecksum, fun _ => text,
   fun _ => "binary-bytes", fun _ => goodDigest, fun _ => true, true⟩

/- ───────────────────────── file-system lemmas ───────────────────────── -/

theorem fsSet_self (fs : FS) (p v : String) : fsSet fs p v p = some v := by
  simp [fsSet]

theorem fsSet_other (fs : FS) {p q : String} (v : String) (h : q ≠ p) :
    fsSet fs p v q = fs q := by
  simp [fsSet, h]

theorem fsRemove_self (fs : FS) (p : String) : fsRemove fs p p = none := by
  simp [fsRemove]

theorem fsRemove_other (fs : FS) {p q : String} (h : q ≠ p) :
    fsRemove fs p q = fs q := by
  simp [fsRemove, h]

theorem fsExists_set_self (fs : FS) (p v : String) :
    fsExists (fsSet fs p v) p = true := by
  simp [fsExists, fsSet]

/- ───────────────────────── catalog lemmas ───────────────────────── -/

theorem get_tool_ok_cases {tool : String} {spec : ToolSpec}
    (h : get_tool tool = .ok spec) : spec = opaSpec ∨ spec = regalSpec := by
  unfold get_tool at h
  rcases hF : SUPPORTED_TOOLS.find? (fun p => p.1 == pyStrip (pyLower tool)) with _ | p
  · simp only [hF] at h
    exact Except.noConfusion h
  · simp only [hF, Except.ok.injEq] at h
    have hmem := List.mem_of_find?_eq_some hF
    simp only [SUPPORTED_TOOLS, List.mem_cons, List.mem_singleton] at hmem
    rcases hmem with h1 | h1 | h1
    · left; rw [← h, h1]
    · right; rw [← h, h1]
    · exact absurd h1 (List.not_mem_nil p)

theorem get_tool_name {tool : String} {spec : ToolSpec}
    (h : get_tool tool = .ok spec) : get_tool spec.name = .ok spec := by
  rcases get_tool_ok_cases h with h1 | h1 <;> subst h1 <;> rfl

/- ───────────────────────── C7: platform mapping ───────────────────────── -/

theorem normalized_os_arch_eq (sysName machine : String) :
    normalized_os_arch sysName machine =
      match osFamily (pyLower sysName), archFamily (pyLower machine) with
      | none, _ =>
          .error (.unsupportedPlatform ("Unsupported OS: " ++ pyLower sysName ++ ".")
            "opavm supports macOS, Linux, and Windows.")
      | some _, none =>
          .error (.unsupportedPlatform ("Unsupported architecture: " ++ pyLower machine ++ ".")
            "Use amd64 or arm64 hardware.")
      | some os, some arch =>
          if os = "windows" ∧ arch ≠ "amd64" then
            .error (.unsupportedPlatform ("Unsupported architecture: " ++ pyLower machine ++ ".")
              "Windows support currently requires amd64.")
          else .ok (os, arch) := by
  unfold normalized_os_arch osFamily archFamily
  by_cases h1 : pyLower sysName = "darwin" <;>
    by_cases h2 : pyLower sysName = "linux" <;>
      by_cases h3 : pyLower sysName = "windows" <;>
        simp_all <;>
          by_cases h4 : pyLower machine = "x86_64" <;>
            by_cases h5 : pyLower machine = "amd64" <;>
              by_cases h6 : pyLower machine = "aarch64" <;>
                by_cases h7 : pyLower machine = "arm64" <;>
                  simp_all

/-- C7: normalized_os_arch maps every system report through the lowercased
system name to an os in darwin/linux/windows and through the lowercased
machine to amd64 (x86_64, amd64) or arm64 (aarch64, arm64), and raises
UnsupportedPlatformError exactly when the OS is outside the three
families, the machine is outside the four strings, or the OS is windows
with a non-amd64 arch; windows+arm64 always fails. -/
theorem normalized_os_arch_spec (sysName machine : String) :
    (normalized_os_arch sysName machine =
      match osFamily (pyLower sysName), archFamily (pyLower machine) with
      | none, _ =>
          .error (.unsupportedPlatform ("Unsupported OS: " ++ pyLower sysName ++ ".")
            "opavm supports macOS, Linux, and Windows.")
      | some _, none =>
          .error (.unsupportedPlatform ("Unsupported architecture: " ++ pyLower machine ++ ".")
            "Use amd64 or arm64 hardware.")
      | some os, some arch =>
          if os = "windows" ∧ arch ≠ "amd64" then
            .error (.unsupportedPlatform ("Unsupported architecture: " ++ pyLower machine ++ ".")
              "Windows support currently requires amd64.")
          else .ok (os, arch))
    ∧ normalized_os_arch "Windows" "arm64" =
        .error (.unsupportedPlatform "Unsupported architecture: arm64."
          "Windows support currently requires amd64.")
    ∧ normalized_os_arch "Darwin" "x86_64" = .ok ("darwin", "amd64")
    ∧ normalized_os_arch "Darwin" "arm64" = .ok ("darwin", "arm64")
    ∧ normalized_os_arch "Linux" "amd64" = .ok ("linux", "amd64")
    ∧ normalized_os_arch "Linux" "aarch64" = .ok ("linux", "arm64")
    ∧ normalized_os_arch "Windows" "x86_64" = .ok ("windows", "amd64") :=
  ⟨normalized_os_arch_eq sysName machine, rfl, rfl, rfl, rfl, rfl, rfl⟩

/- ───────────────────── C9: regal asset candidates ───────────────────── -/

theorem regal_candidates_darwin_amd64 :
    _asset_candidates "regal" "darwin" "amd64" = .ok ["regal_Darwin_x86_64"] := rfl

theorem regal_candidates_darwin_arm64 :
    _asset_candidates "regal" "darwin" "arm64" = .ok ["regal_Darwin_arm64"] := rfl

theorem regal_candidates_linux_amd64 :
    _asset_candidates "regal" "linux" "amd64" = .ok ["regal_Linux_x86_64"] := rfl

theorem regal_candidates_linux_arm64 :
    _asset_candidates "regal" "linux" "arm64" = .ok ["regal_Linux_arm64"] := rfl

theorem regal_candidates_windows_amd64 :
    _asset_candidates "regal" "windows" "amd64" = .ok ["regal_Windows_x86_64.exe"] := rfl

theorem regal_candidates_windows_arm64 :
    _asset_candidates "regal" "windows" "arm64" = .ok ["regal_Windows_arm64.exe"] := rfl

/-- C9: for tool "regal" the installer's candidate list is always the
single title-cased name regal_(Darwin|Linux|Windows)_(x86_64|arm64) with
".exe" only on windows, never carries a "_static" fallback, and differs
from the lowercase asset_name_candidates scheme used for opa. -/
theorem regal_asset_candidates_spec (os_name arch : String) (names : List String) :
    (_asset_candidates "regal" os_name arch = .ok names ↔
       (os_name, arch, names) ∈ regalCandidateTable)
    ∧ (∀ entry ∈ regalCandidateTable,
         entry.2.2.length = 1
         ∧ (∀ n ∈ entry.2.2, pyEndsWith n "_static" = false)
         ∧ entry.2.2 ≠ asset_name_candidates entry.1 entry.2.1 "regal") := by
  constructor
  · by_cases h1 : os_name = "darwin" <;> by_cases h2 : os_name = "linux" <;>
      by_cases h3 : os_name = "windows" <;> by_cases h4 : arch = "amd64" <;>
        by_cases h5 : arch = "arm64" <;>
          first
            | (exact absurd (h2 ▸ h1) (by decide))
            | (exact absurd (h3 ▸ h1) (by decide))
            | (exact absurd (h3 ▸ h2) (by decide))
            | (exact absurd (h5 ▸ h4) (by decide))
            | (subst_vars
               first
                 | (rw [regal_candidates_darwin_amd64]; simp [regalCandidateTable]; exact eq_comm)
                 | (rw [regal_candidates_darwin_arm64]; simp [regalCandidateTable]; exact eq_comm)
                 | (rw [regal_candidates_linux_amd64]; simp [regalCandidateTable]; exact eq_comm)
                 | (rw [regal_candidates_linux_arm64]; simp [regalCandidateTable]; exact eq_comm)
                 | (rw [regal_candidates_windows_amd64]; simp [regalCandidateTable]; exact eq_comm)
                 | (rw [regal_candidates_windows_arm64]; simp [regalCandidateTable]; exact eq_comm))
            | (constructor
               · intro h
                 exfalso
                 unfold _asset_candidates regal_os_token regal_arch_token at h
                 simp only [h1, h2, h3, h4, h5] at h
                 simp at h
               · intro h
                 exfalso
                 simp only [regalCandidateTable, List.mem_cons, List.not_mem_nil] at h
                 rcases h with h | h | h | h | h | h <;>
                   simp_all)
  · decide

/- ───────────────────── C10: release payload parsing ───────────────────── -/

/-- C10: release_of_payload (the payload tail of fetch_release) errors
with "Invalid GitHub response." exactly when tag_name is missing or
empty, and asset entries lacking name or browser_download_url are
silently omitted from the resulting assets. -/
theorem fetch_release_payload_spec (p : ReleasePayload) :
    ((∃ er, release_of_payload p = .error er) ↔
       (p.tag_name = none ∨ p.tag_name = some ""))
    ∧ (∀ er, release_of_payload p = .error er →
         er = .gitHubLookup "Invalid GitHub response." "Release tag missing.")
    ∧ (∀ r, release_of_payload p = .ok r →
         ∀ n u, ReleaseAsset.mk n u ∈ r.assets ↔
           AssetItem.mk (some n) (some u) ∈ p.assets) := by
  refine ⟨?_, ?_, ?_⟩
  · rcases hp : p.tag_name with _ | t
    · simp [release_of_payload, hp]
    · by_cases ht : t = ""
      · subst ht; simp [release_of_payload, hp]
      · simp [release_of_payload, hp, ht]
  · intro er h
    unfold release_of_payload at h
    split at h
    · exact (Except.error.inj h).symm
    · split at h
      · exact (Except.error.inj h).symm
      · exact Except.noConfusion h
  · intro r h n u
    unfold release_of_payload at h
    split at h
    · exact Except.noConfusion h
    · split at h
      · exact Except.noConfusion h
      · simp only [Except.ok.injEq] at h
        subst h
        simp only [assetsOfPayload, List.mem_filterMap]
        constructor
        · rintro ⟨⟨an, au⟩, hmem, hmatch⟩
          rcases an with _ | an' <;> rcases au with _ | au' <;> simp at hmatch
          obtain ⟨h1, h2⟩ := hmatch
          subst h1; subst h2
          exact hmem
        · intro hmem
          exact ⟨⟨some n, some u⟩, hmem, rfl⟩

theorem fetch_release_payload_spec_witness :
    (ReleaseAsset.mk "opa_linux_amd64" "https://u" ∈
        assetsOfPayload [⟨some "opa_linux_amd64", some "https://u"⟩, ⟨none, some "x"⟩])
    ∧ (∃ er, release_of_payload (ReleasePayload.mk (some "") []) = .error er) := by
  constructor
  · exact ((fetch_release_payload_spec
        ⟨some "v1.2.3", [⟨some "opa_linux_amd64", some "https://u"⟩, ⟨none, some "x"⟩]⟩).2.2
        ⟨"1.2.3", "v1.2.3",
          assetsOfPayload [⟨some "opa_linux_amd64", some "https://u"⟩, ⟨none, some "x"⟩]⟩
        rfl "opa_linux_amd64" "https://u").mpr (by simp)
  · exact (fetch_release_payload_spec ⟨some "", []⟩).1.mpr (Or.inr rfl)

/- ───────────────────── C4: asset selection order ───────────────────── -/

theorem findAssetUrl_eq_some_iff (assets : List ReleaseAsset) (nm u : String) :
    findAssetUrl assets nm = some u ↔
      ∃ a1 a a2, assets = a1 ++ a :: a2 ∧ a.name = nm ∧ a.url = u ∧
        ∀ b ∈ a1, b.name ≠ nm := by
  induction assets with
  | nil => simp [findAssetUrl]
  | cons x rest ih =>
    unfold findAssetUrl
    by_cases hx : x.name = nm
    · rw [if_pos hx]
      constructor
      · intro h
        exact ⟨[], x, rest, by simp, hx, (Option.some.inj h).symm ▸ rfl, by simp⟩
      · rintro ⟨a1, a, a2, heq, hname, hurl, hfirst⟩
        cases a1 with
        | nil =>
            simp only [List.nil_append, List.cons.injEq] at heq
            rw [heq.1, hurl]
        | cons b a1' =>
            simp only [List.cons_append, List.cons.injEq] at heq
            exact absurd (heq.1 ▸ hx) (hfirst b (List.mem_cons_self b a1'))
    · rw [if_neg hx, ih]
      constructor
      · rintro ⟨a1, a, a2, heq, hname, hurl, hfirst⟩
        refine ⟨x :: a1, a, a2, by rw [heq]; rfl, hname, hurl, ?_⟩
        intro b hb
        rcases List.mem_cons.mp hb with hb | hb
        · rw [hb]; exact hx
        · exact hfirst b hb
      · rintro ⟨a1, a, a2, heq, hname, hurl, hfirst⟩
        cases a1 with
        | nil =>
            simp only [List.nil_append, List.cons.injEq] at heq
            exact absurd (heq.1 ▸ hname) hx
        | cons b a1' =>
            simp only [List.cons_append, List.cons.injEq] at heq
            refine ⟨a1', a, a2, heq.2, hname, hurl, ?_⟩
            intro c hc
            exact hfirst c (List.mem_cons_of_mem b hc)

theorem pickFromCandidates_eq_some_iff (assets : List ReleaseAsset)
    (names : List String) (u : String) :
    pickFromCandidates assets names = some u ↔
      ∃ l1 nm l2, names = l1 ++ nm :: l2 ∧ findAssetUrl assets nm = some u ∧
        ∀ m ∈ l1, findAssetUrl assets m = none := by
  induction names with
  | nil => simp [pickFromCandidates]
  | cons n rest ih =>
    unfold pickFromCandidates
    rcases hf : findAssetUrl assets n with _ | v <;> simp only [hf]
    · rw [ih]
      constructor
      · rintro ⟨l1, nm, l2, heq, hnm, hfirst⟩
        refine ⟨n :: l1, nm, l2, by rw [heq]; rfl, hnm, ?_⟩
        intro m hm
        rcases List.mem_cons.mp hm with hm | hm
        · rw [hm]; exact hf
        · exact hfirst m hm
      · rintro ⟨l1, nm, l2, heq, hnm, hfirst⟩
        cases l1 with
        | nil =>
            simp only [List.nil_append, List.cons.injEq] at heq
            rw [← heq.1, hf] at hnm
            exact Option.noConfusion hnm
        | cons b l1' =>
            simp only [List.cons_append, List.cons.injEq] at heq
            exact ⟨l1', nm, l2, heq.2, hnm, fun m hm => hfirst m (List.mem_cons_of_mem b hm)⟩
    · constructor
      · intro h
        exact ⟨[], n, rest, by simp, by rw [hf]; exact h, by simp⟩
      · rintro ⟨l1, nm, l2, heq, hnm, hfirst⟩
        cases l1 with
        | nil =>
            simp only [List.nil_append, List.cons.injEq] at heq
            rw [← heq.1, hf] at hnm
            exact hnm
        | cons b l1' =>
            simp only [List.cons_append, List.cons.injEq] at heq
            have hb := hfirst b (List.mem_cons_self b l1')
            rw [← heq.1, hf] at hb
            exact Option.noConfusion hb

theorem pickFromCandidates_eq_none_iff (assets : List ReleaseAsset)
    (names : List String) :
    pickFromCandidates assets names = none ↔
      ∀ nm ∈ names, findAssetUrl assets nm = none := by
  induction names with
  | nil => simp [pickFromCandidates]
  | cons n rest ih =>
    unfold pickFromCandidates
    rcases hf : findAssetUrl assets n with _ | v <;> simp [hf, ih]

/-- C4: pick_asset_url walks the candidate names in priority order and,
per candidate, the asset list in its given order, returning the first
exact match's URL; with no match it fails naming the expected candidate
set; the example scenario picks the static asset's URL, and with both a
primary and a "_static" fallback present the primary is chosen. -/
theorem pick_asset_url_first_match :
    (∀ (release : ReleaseInfo) (names : List String) (u : String),
       pick_asset_url release names = .ok u ↔
         ∃ l1 nm l2, names = l1 ++ nm :: l2
           ∧ (∀ m ∈ l1, findAssetUrl release.assets m = none)
           ∧ ∃ a1 a a2, release.assets = a1 ++ a :: a2 ∧ a.name = nm ∧ a.url = u
               ∧ ∀ b ∈ a1, b.name ≠ nm)
    ∧ (∀ release names, (∀ nm ∈ names, findAssetUrl release.assets nm = none) →
         pick_asset_url release names =
           .error (.gitHubLookup
             ("No matching asset found for " ++ joinSep ", " names ++ ".")
             "Check available release assets."))
    ∧ pick_asset_url staticAmdRelease ["opa_linux_arm64", "opa_linux_arm64_static"]
        = .ok "https://example/static"
    ∧ pick_asset_url primaryAndStaticRelease (asset_name_candidates "linux" "arm64" "opa")
        = .ok "https://example/primary" := by
  refine ⟨?_, ?_, rfl, rfl⟩
  · intro release names u
    unfold pick_asset_url
    rcases hp : pickFromCandidates release.assets names with _ | v
    · constructor
      · intro h
        exact Except.noConfusion h
      · rintro ⟨l1, nm, l2, heq, hfirst, hdecomp⟩
        have hfind : findAssetUrl release.assets nm = some u :=
          (findAssetUrl_eq_some_iff release.assets nm u).mpr hdecomp
        have : pickFromCandidates release.assets names = some u :=
          (pickFromCandidates_eq_some_iff release.assets names u).mpr
            ⟨l1, nm, l2, heq, hfind, hfirst⟩
        rw [hp] at this
        exact Option.noConfusion this
    · constructor
      · intro h
        have hv : v = u := by simpa using h
        subst hv
        obtain ⟨l1, nm, l2, heq, hfind, hfirst⟩ :=
          (pickFromCandidates_eq_some_iff release.assets names v).mp hp
        obtain hdecomp := (findAssetUrl_eq_some_iff release.assets nm v).mp hfind
        exact ⟨l1, nm, l2, heq, hfirst, hdecomp⟩
      · rintro ⟨l1, nm, l2, heq, hfirst, hdecomp⟩
        have hfind : findAssetUrl release.assets nm = some u :=
          (findAssetUrl_eq_some_iff release.assets nm u).mpr hdecomp
        have : pickFromCandidates release.assets names = some u :=
          (pickFromCandidates_eq_some_iff release.assets names u).mpr
            ⟨l1, nm, l2, heq, hfind, hfirst⟩
        rw [hp] at this
        simpa using this
  · intro release names h
    unfold pick_asset_url
    rw [(pickFromCandidates_eq_none_iff release.assets names).mpr h]

theorem pick_asset_url_first_match_witness :
    pick_asset_url (ReleaseInfo.mk "1.2.3" "v1.2.3" []) ["opa_linux_amd64"]
        = .error (.gitHubLookup
            ("No matching asset found for " ++ joinSep ", " ["opa_linux_amd64"] ++ ".")
            "Check available release assets.") :=
  pick_asset_url_first_match.2.1 ⟨"1.2.3", "v1.2.3", []⟩ ["opa_linux_amd64"]
    (fun _ _ => rfl)

/- ───────────────────── C5: defensive state loading ───────────────────── -/

/-- C5: load_state yields the default state for a missing file, fails
with the corrupt-state error (telling the user to delete the file)
exactly when the file exists but does not parse as JSON, ignores unknown
top-level keys, and silently drops global_defaults entries whose value is
not a string, never raising on parsed content. -/
theorem load_state_defensive (file : Option (Option JVal)) :
    ((∃ er, load_state file = .error er) ↔ file = some none)
    ∧ load_state (some none) =
        .error (.opavmError "Corrupt state file." (some "Delete ~/.opavm/state.json and retry."))
    ∧ load_state none = .ok default_state
    ∧ (∀ v, (∀ entries, v ≠ JVal.obj entries) → load_state (some (some v)) = .ok default_state)
    ∧ (∀ e1 e2, jget e1 "global_default" = jget e2 "global_default" →
         jget e1 "global_defaults" = jget e2 "global_defaults" →
         load_state (some (some (JVal.obj e1))) = load_state (some (some (JVal.obj e2))))
    ∧ (∀ entries ge st, jget entries "global_defaults" = some (JVal.obj ge) →
         load_state (some (some (JVal.obj entries))) = .ok st →
         ∀ k v, (k, v) ∈ st.global_defaults ↔ (k, JVal.str v) ∈ ge) := by
  refine ⟨?_, rfl, rfl, ?_, ?_, ?_⟩
  · rcases file with _ | f
    · simp [load_state]
    · rcases f with _ | v
      · exact ⟨fun _ => rfl, fun _ => ⟨_, rfl⟩⟩
      · rcases v with _ | _ | _ | _ | _ | entries <;> simp [load_state]
  · intro v hv
    rcases v with _ | _ | _ | _ | _ | entries
    · rfl
    · rfl
    · rfl
    · rfl
    · rfl
    · exact absurd rfl (hv entries)
  · intro e1 e2 h1 h2
    simp only [load_state, h1, h2]
  · intro entries ge st hgd hst
    unfold load_state at hst
    simp only [hgd] at hst
    simp only [Except.ok.injEq] at hst
    subst hst
    intro k v
    simp only [stringEntries, List.mem_filterMap]
    constructor
    · rintro ⟨⟨pk, pv⟩, hmem, hmatch⟩
      rcases pv with _ | _ | _ | s | _ | _ <;> simp at hmatch
      obtain ⟨h1', h2'⟩ := hmatch
      subst h1'; subst h2'
      exact hmem
    · intro hmem
      exact ⟨(k, JVal.str v), hmem, rfl⟩

theorem load_state_defensive_witness :
    load_state (some (some (JVal.obj [("unknown", JVal.num 1),
        ("global_defaults", JVal.obj [("opa", JVal.str "1.0.0"), ("regal", JVal.num 3)])])))
      = .ok ⟨JVal.null, [("opa", "1.0.0")]⟩
    ∧ (("opa", "1.0.0") ∈ ([("opa", "1.0.0")] : List (String × String)) ↔
        ("opa", JVal.str "1.0.0") ∈
          [("opa", JVal.str "1.0.0"), ("regal", JVal.num 3)]) := by
  refine ⟨rfl, ?_⟩
  exact (load_state_defensive (some (some (JVal.obj [("unknown", JVal.num 1),
      ("global_defaults", JVal.obj [("opa", JVal.str "1.0.0"), ("regal", JVal.num 3)])])))).2.2.2.2.2
    [("unknown", JVal.num 1),
      ("global_defaults", JVal.obj [("opa", JVal.str "1.0.0"), ("regal", JVal.num 3)])]
    [("opa", JVal.str "1.0.0"), ("regal", JVal.num 3)]
    ⟨JVal.null, [("opa", "1.0.0")]⟩ rfl rfl "opa" "1.0.0"

/- ───────────────────── C6: atomic state save ───────────────────── -/

/-- C6: save_state writes the serialized document to a fresh temp file in
the state file's own directory and atomically renames it over the state
path; a successful call leaves exactly the new document at the state path
and no temp file behind, a failed step leaves the previous state file
untouched with the temp file removed, and no other path is affected. -/
theorem save_state_atomic (fs : FS) (base uniq doc tornContent : String)
    (failAt : Option SaveStep)
    (hfresh : tmp_path base uniq ≠ state_path base) :
    ((save_state fs (state_path base) (tmp_path base uniq) doc failAt tornContent).ok = true ↔
       failAt = none)
    ∧ (failAt = none →
        (save_state fs (state_path base) (tmp_path base uniq) doc failAt tornContent).fs
            (state_path base) = some (doc ++ "\n")
        ∧ (save_state fs (state_path base) (tmp_path base uniq) doc failAt tornContent).fs
            (tmp_path base uniq) = none)
    ∧ (failAt ≠ none →
        (save_state fs (state_path base) (tmp_path base uniq) doc failAt tornContent).fs
            (state_path base) = fs (state_path base)
        ∧ (save_state fs (state_path base) (tmp_path base uniq) doc failAt tornContent).fs
            (tmp_path base uniq) = none)
    ∧ (∀ p, p ≠ state_path base → p ≠ tmp_path base uniq →
        (save_state fs (state_path base) (tmp_path base uniq) doc failAt tornContent).fs p
          = fs p) := by
  have hfresh' : ¬ state_path base = tmp_path base uniq := fun h => hfresh h.symm
  rcases failAt with _ | step
  · refine ⟨by simp [save_state], fun _ => ⟨?_, ?_⟩, fun h => absurd rfl h, ?_⟩
    · simp [save_state, fsSet, fsRemove, fsExists, hfresh, hfresh']
    · simp [save_state, fsSet, fsRemove, fsExists, hfresh, hfresh']
    · intro p hp1 hp2
      simp [save_state, fsSet, fsRemove, fsExists, hfresh, hfresh', hp1, hp2]
  · rcases step <;>
      refine ⟨by simp [save_state], fun h => Option.noConfusion h, fun _ => ⟨?_, ?_⟩, ?_⟩ <;>
        first
          | (intro p hp1 hp2
             simp [save_state, fsSet, fsRemove, fsExists, hfresh, hfresh', hp1, hp2])
          | (simp [save_state, fsSet, fsRemove, fsExists, hfresh, hfresh'])

theorem save_state_atomic_witness :
    tmp_path "/home/u/.opavm" "ab12" ≠ state_path "/home/u/.opavm"
    ∧ (save_state fsEmpty (state_path "/home/u/.opavm") (tmp_path "/home/u/.opavm" "ab12")
          "doc" none "").fs (state_path "/home/u/.opavm") = some ("doc" ++ "\n")
    ∧ (save_state fsEmpty (state_path "/home/u/.opavm") (tmp_path "/home/u/.opavm" "ab12")
          "doc" (some SaveStep.fsyncDoc) "").fs (tmp_path "/home/u/.opavm" "ab12") = none := by
  have hfresh : tmp_path "/home/u/.opavm" "ab12" ≠ state_path "/home/u/.opavm" := by decide
  refine ⟨hfresh, ?_, ?_⟩
  · exact ((save_state_atomic fsEmpty "/home/u/.opavm" "ab12" "doc" "" none hfresh).2.1 rfl).1
  · exact ((save_state_atomic fsEmpty "/home/u/.opavm" "ab12" "doc" ""
      (some SaveStep.fsyncDoc) hfresh).2.2.1 (fun h => Option.noConfusion h)).2

/- ───────────────── C1: pin-file resolution (AttributeError) ───────────────── -/

/-- C1: contrary to the claim, resolve_version cannot return a pinned
version: the ToolSpec dataclass has no pin_filename field, so the
attribute access in resolver.pin_filename raises AttributeError before
any directory is examined.  In the a/b/c scenario with a pin file at
/t/a/.opa-version the call errors instead of returning
("0.62.1", "pinned via /t/a/.opa-version"), and the same AttributeError
results for every file system, directory chain and state file. -/
theorem resolve_version_pin_attr_error :
    resolve_version pinScenarioFs pinScenarioDirs none "opa"
        = .error (.attrError "ToolSpec" "pin_filename")
    ∧ (∀ (fs : FS) (dirs : List String) (stateFile : Option (Option JVal)),
        resolve_version fs dirs stateFile "opa"
          = .error (.attrError "ToolSpec" "pin_filename"))
    ∧ (∀ (fs : FS) (dirs : List String) (stateFile : Option (Option JVal)),
        resolve_version fs dirs stateFile "regal"
          = .error (.attrError "ToolSpec" "pin_filename"))
    ∧ pin_filename "opa" = .error (.attrError "ToolSpec" "pin_filename") :=
  ⟨rfl, fun _ _ _ => rfl, fun _ _ _ => rfl, rfl⟩

/- ───────────────── C2: repository override (environment ignored) ───────────────── -/

/-- The payload oracle used to witness which repository fetch_release
queries: the override repository acme/custom-opa answers with tag v9.9.9,
every other repository answers with the requested tag and no assets. -/
def repoProbeOracle : String → String → ReleasePayload :=
  fun repo tag =>
    if repo = "acme/custom-opa" then ⟨some "v9.9.9", []⟩
    else ⟨some tag, [⟨some "opa_linux_amd64", some "https://example.test/opa"⟩]⟩

/-- C2: contrary to the claim, the repository-override environment
variable is never consulted: configured_repo returns the default
repository (and raises no validation error) whatever OPAVM_GITHUB_REPO
holds, fetch_release with no explicit repo queries the default
repository even with the override set, and install passes the tool's
default_repo, so an install with the override set still resolves against
the default repository. -/
theorem configured_repo_env_ignored :
    configured_repo [("OPAVM_GITHUB_REPO", "acme/custom-opa")] "open-policy-agent/opa"
        = .ok "open-policy-agent/opa"
    ∧ configured_repo [("OPAVM_GITHUB_REPO", "not-valid")] "open-policy-agent/opa"
        = .ok "open-policy-agent/opa"
    ∧ (∀ (env env' : List (String × String)) (d : String),
        configured_repo env d = configured_repo env' d)
    ∧ fetch_release [("OPAVM_GITHUB_REPO", "acme/custom-opa")] repoProbeOracle "1.2.3" none
        = .ok ⟨"1.2.3", "v1.2.3", [⟨"opa_linux_amd64", "https://example.test/opa"⟩]⟩
    ∧ (install
        ⟨"Linux", "x86_64", [("OPAVM_GITHUB_REPO", "acme/custom-opa")], repoProbeOracle,
          fun _ => "", fun _ => "bin", fun _ => goodDigest, fun _ => true, true⟩
        "/opavm" fsEmpty "1.2.3" "opa").result = .ok "1.2.3" :=
  ⟨rfl, rfl, fun _ _ _ => rfl, rfl, rfl⟩

/- ───────────────────── installer helper lemmas ───────────────────── -/

theorem is_installed_after_set (base : String) (fs : FS) (sysName machine : String)
    (version tool : String) (spec : ToolSpec) (pr : String × String) (target content : String)
    (hspec : get_tool tool = .ok spec)
    (hos : normalized_os_arch sysName machine = .ok pr)
    (htgt : _platform_binary_path base version pr.1 spec.name = .ok target) :
    is_installed base (fsSet fs target content) sysName machine version spec.name = .ok true := by
  have hname := get_tool_name hspec
  unfold is_installed binary_path
  simp only [hname, hos, htgt, fsExists_set_self, if_true]

theorem install_already (e : InstallEnv) (base : String) (fs : FS) (version tool : String)
    (spec : ToolSpec) (release : ReleaseInfo) (pr : String × String)
    (hspec : get_tool tool = .ok spec)
    (hos : normalized_os_arch e.sysName e.machine = .ok pr)
    (hrel : fetch_release e.env e.fetchPayload version (some spec.default_repo) = .ok release)
    (hinst : is_installed base fs e.sysName e.machine release.version spec.name = .ok true) :
    install e base fs version tool
      = ⟨["resolving", "already_installed"], fs, .ok release.version⟩ := by
  unfold install
  simp only [hspec, hos, hrel, hinst]
  rfl

theorem install_ok_installed (e : InstallEnv) (base : String) (fs : FS)
    (version tool : String) (spec : ToolSpec) (release : ReleaseInfo) (pr : String × String)
    (hspec : get_tool tool = .ok spec)
    (hos : normalized_os_arch e.sysName e.machine = .ok pr)
    (hrel : fetch_release e.env e.fetchPayload version (some spec.default_repo) = .ok release) :
    ∀ v, (install e base fs version tool).result = .ok v →
      v = release.version ∧
      is_installed base (install e base fs version tool).fs e.sysName e.machine
        release.version spec.name = .ok true := by
  intro v hv
  unfold install at hv ⊢
  simp only [hspec, hos, hrel] at hv ⊢
  rcases hI : is_installed base fs e.sysName e.machine release.version spec.name with er | b
  · simp only [hI] at hv
    exact Except.noConfusion hv
  · rcases b with _ | _
    · simp only [hI] at hv ⊢
      rcases hC : _asset_candidates spec.name pr.1 pr.2 with er | expected
      · simp only [hC] at hv
        exact Except.noConfusion hv
      · simp only [hC] at hv ⊢
        rcases hP : pick_asset_url release expected with er | asset_url
        · simp only [hP] at hv
          exact Except.noConfusion hv
        · simp only [hP] at hv ⊢
          rcases hT : _platform_binary_path base release.version pr.1 spec.name with er | target
          · simp only [hT] at hv
            exact Except.noConfusion hv
          · simp only [hT] at hv ⊢
            rcases hD : e.downloadOk with _ | _
            · simp only [hD, Bool.false_eq_true, if_false] at hv
              exact Except.noConfusion hv
            · simp only [hD, if_true] at hv ⊢
              rcases hK : checksum_asset_url release (selectAssetName release.assets expected)
                  with _ | checksum_url
              · simp only [hK] at hv ⊢
                unfold install_finish at hv ⊢
                rcases hV : e.verifyOk ((fsSet fs target (e.assetContent asset_url) target).getD "")
                    with _ | _
                · simp only [hV, Bool.false_eq_true, if_false] at hv
                  exact Except.noConfusion hv
                · simp only [hV, if_true] at hv ⊢
                  simp only [Except.ok.injEq] at hv
                  exact ⟨hv.symm,
                    is_installed_after_set base fs e.sysName e.machine release.version tool
                      spec pr target (e.assetContent asset_url) hspec hos hT⟩
              · simp only [hK] at hv ⊢
                rcases hPar : parse_checksum_text (e.fetchText checksum_url) with er | digest
                · simp only [hPar] at hv
                  exact Except.noConfusion hv
                · simp only [hPar] at hv ⊢
                  by_cases hne : digest ≠
                      e.sha256Of ((fsSet fs target (e.assetContent asset_url) target).getD "")
                  · rw [if_pos hne] at hv
                    exact Except.noConfusion hv
                  · rw [if_neg hne] at hv
                    rw [if_neg hne]
                    unfold install_finish at hv ⊢
                    rcases hV : e.verifyOk
                        ((fsSet fs target (e.assetContent asset_url) target).getD "") with _ | _
                    · simp only [hV, Bool.false_eq_true, if_false] at hv
                      exact Except.noConfusion hv
                    · simp only [hV, if_true] at hv ⊢
                      simp only [Except.ok.injEq] at hv
                      exact ⟨hv.symm,
                        is_installed_after_set base fs e.sysName e.machine release.version tool
                          spec pr target (e.assetContent asset_url) hspec hos hT⟩
    · simp only [hI] at hv ⊢
      simp only [Except.ok.injEq] at hv
      exact ⟨hv.symm, trivial⟩

/- ───────────────────── C3: install idempotence ───────────────────── -/

/-- C3: when the version resolved from the release metadata is already
installed, install emits exactly ["resolving", "already_installed"],
returns that version and leaves the file system untouched (no download,
checksum or verification step); consequently a second call with the same
(version, tool) after any successful call returns the same resolved
version through the already-installed path. -/
theorem install_idempotent (e : InstallEnv) (base : String) (fs : FS)
    (version tool : String) (spec : ToolSpec) (release : ReleaseInfo) (pr : String × String)
    (hspec : get_tool tool = .ok spec)
    (hos : normalized_os_arch e.sysName e.machine = .ok pr)
    (hrel : fetch_release e.env e.fetchPayload version (some spec.default_repo) = .ok release) :
    (is_installed base fs e.sysName e.machine release.version spec.name = .ok true →
       install e base fs version tool
         = ⟨["resolving", "already_installed"], fs, .ok release.version⟩)
    ∧ (∀ v, (install e base fs version tool).result = .ok v →
        install e base (install e base fs version tool).fs version tool
          = ⟨["resolving", "already_installed"],
             (install e base fs version tool).fs, .ok v⟩) := by
  constructor
  · exact install_already e base fs version tool spec release pr hspec hos hrel
  · intro v hv
    obtain ⟨hveq, hinst2⟩ :=
      install_ok_installed e base fs version tool spec release pr hspec hos hrel v hv
    subst hveq
    exact install_already e base (install e base fs version tool).fs version tool
      spec release pr hspec hos hrel hinst2

theorem normalized_os_arch_spec_witness :
    normalized_os_arch "Linux" "aarch64" = .ok ("linux", "arm64") :=
  (normalized_os_arch_spec "Linux" "aarch64").2.2.2.2.2.1

theorem regal_asset_candidates_spec_witness :
    _asset_candidates "regal" "linux" "amd64" = .ok ["regal_Linux_x86_64"]
    ∧ (["regal_Linux_x86_64"] : List String).length = 1 :=
  ⟨(regal_asset_candidates_spec "linux" "amd64" ["regal_Linux_x86_64"]).1.mpr (by decide),
   ((regal_asset_candidates_spec "linux" "amd64" ["regal_Linux_x86_64"]).2
      ("linux", "amd64", ["regal_Linux_x86_64"]) (by decide)).1⟩

theorem install_idempotent_witness :
    install plainEnv "/opavm" (install plainEnv "/opavm" fsEmpty "0.62.1" "opa").fs
        "0.62.1" "opa"
      = ⟨["resolving", "already_installed"],
         (install plainEnv "/opavm" fsEmpty "0.62.1" "opa").fs, .ok "0.62.1"⟩ :=
  (install_idempotent plainEnv "/opavm" fsEmpty "0.62.1" "opa" opaSpec
      ⟨"0.62.1", "v0.62.1", [⟨"opa_linux_amd64", "https://example.test/opa"⟩]⟩
      ("linux", "amd64") rfl rfl rfl).2 "0.62.1" rfl

/- ───────────────────── C8: checksum verification gate ───────────────────── -/

/-- C8: with a companion checksum asset present, a digest mismatch makes
install fail with the checksum error naming the selected asset while the
downloaded binary stays on disk and neither "verifying" nor "done" is
emitted; matching digests proceed to binary verification and success. -/
theorem install_checksum_gate (e : InstallEnv) (base : String) (fs : FS)
    (version tool : String) (spec : ToolSpec) (release : ReleaseInfo) (pr : String × String)
    (expected : List String) (asset_url target checksum_url digest : String)
    (hspec : get_tool tool = .ok spec)
    (hos : normalized_os_arch e.sysName e.machine = .ok pr)
    (hrel : fetch_release e.env e.fetchPayload version (some spec.default_repo) = .ok release)
    (hnot : is_installed base fs e.sysName e.machine release.version spec.name = .ok false)
    (hcand : _asset_candidates spec.name pr.1 pr.2 = .ok expected)
    (hurl : pick_asset_url release expected = .ok asset_url)
    (htgt : _platform_binary_path base release.version pr.1 spec.name = .ok target)
    (hdl : e.downloadOk = true)
    (hck : checksum_asset_url release (selectAssetName release.assets expected)
        = some checksum_url)
    (hparse : parse_checksum_text (e.fetchText checksum_url) = .ok digest) :
    (digest ≠ e.sha256Of (e.assetContent asset_url) →
       install e base fs version tool =
         ⟨["resolving", "downloading", "verifying_checksum"],
          fsSet fs target (e.assetContent asset_url),
          .error (.opavmError "Checksum verification failed."
            (some ("Downloaded file hash mismatch for "
              ++ selectAssetName release.assets expected ++ ".")))⟩)
    ∧ (digest = e.sha256Of (e.assetContent asset_url) →
       e.verifyOk (e.assetContent asset_url) = true →
       install e base fs version tool =
         ⟨["resolving", "downloading", "verifying_checksum", "verifying", "done"],
          fsSet fs target (e.assetContent asset_url),
          .ok release.version⟩) := by
  unfold install
  simp only [hspec, hos, hrel, hnot, hcand, hurl, htgt, hdl, if_true, hck, hparse,
    fsSet_self, Option.getD_some]
  constructor
  · intro hne
    rw [if_pos hne]
    rfl
  · intro heq hver
    rw [if_neg (fun h => h heq)]
    unfold install_finish
    simp only [fsSet_self, Option.getD_some, hver, if_true]
    rfl

theorem install_checksum_gate_witness :
    (install (checksumEnv (badDigest ++ "  opa_linux_amd64" ++ "\n")) "/opavm" fsEmpty
        "0.62.1" "opa").trace = ["resolving", "downloading", "verifying_checksum"]
    ∧ (install (checksumEnv (goodDigest ++ "  opa_linux_amd64" ++ "\n")) "/opavm" fsEmpty
        "0.62.1" "opa").result = .ok "0.62.1"
    ∧ (install (checksumEnv (goodDigest ++ "  opa_linux_amd64" ++ "\n")) "/opavm" fsEmpty
        "0.62.1" "opa").trace
        = ["resolving", "downloading", "verifying_checksum", "verifying", "done"] := by
  have hbad := (install_checksum_gate
      (checksumEnv (badDigest ++ "  opa_linux_amd64" ++ "\n")) "/opavm" fsEmpty
      "0.62.1" "opa" opaSpec
      ⟨"0.62.1", "v0.62.1",
        [⟨"opa_linux_amd64", "https://example.test/opa"⟩,
         ⟨"opa_linux_amd64.sha256", "https://example.test/opa.sha256"⟩]⟩
      ("linux", "amd64") ["opa_linux_amd64"] "https://example.test/opa"
      "/opavm/versions/0.62.1/opa" "https://example.test/opa.sha256" badDigest
      rfl rfl rfl rfl rfl rfl rfl rfl rfl rfl).1 (by decide)
  have hgood := (install_checksum_gate
      (checksumEnv (goodDigest ++ "  opa_linux_amd64" ++ "\n")) "/opavm" fsEmpty
      "0.62.1" "opa" opaSpec
      ⟨"0.62.1", "v0.62.1",
        [⟨"opa_linux_amd64", "https://example.test/opa"⟩,
         ⟨"opa_linux_amd64.sha256", "https://example.test/opa.sha256"⟩]⟩
      ("linux", "amd64") ["opa_linux_amd64"] "https://example.test/opa"
      "/opavm/versions/0.62.1/opa" "https://example.test/opa.sha256" goodDigest
      rfl rfl rfl rfl rfl rfl rfl rfl rfl rfl).2 rfl rfl
  rw [hbad, hgood]
  exact ⟨rfl, rfl, rfl⟩

end Opavm
